import Mathlib

/-!
Shallow embedding of the HomeLibraryBot conversation engine and rotation
algorithm, together with theorems settling the specification claims.

The embedding follows the Go sources:
 - `internal/bot/rotation.go`    (ComputeNextParticipant)
 - `internal/bot/handlers.go`    (handleMessage / handleCallbackQuery, go-telegram)
 - `internal/bot/commands.go`    (command entry points, go-telegram)
 - `internal/bot/callbacks.go`   (inline-keyboard callbacks, go-telegram chunk)
 - `internal/bot/lifecycle.go`   (HandleWebhookUpdate)
 - the conversation step handlers (handleConversation and friends)
 - `internal/models/models.go`   (record types)

Go `time.Time` values are modelled at calendar-day granularity (year, month,
day); the program only ever observes dates through the `2006-01-02` format.
The storage collaborator is modelled as a snapshot of the results its calls
would return.  Mutating calls (CreateBook / CreateEvent) are recorded as
explicit store-write effects; outbound Telegram sends are recorded as
message effects.
-/

namespace HomeLib

/-- Calendar date, the observable part of a Go `time.Time` in this program. -/
structure GoDate where
  year : Int
  month : Int
  day : Int
deriving DecidableEq, Repr

/-- Participant record (`models.Participant`). -/
structure Participant where
  name : String
  isParent : Bool
deriving DecidableEq, Repr

/-- Book record (`models.Book`). -/
structure Book where
  name : String
  isReadable : Bool
  labels : List String
deriving DecidableEq, Repr

/-- Reading event record (`models.Event`). -/
structure Event where
  date : GoDate
  bookName : String
  participantName : String
deriving DecidableEq, Repr

/-- Book statistics record (`models.BookStat`). -/
structure BookStat where
  bookName : String
  readCount : Int
deriving DecidableEq, Repr

/-- Names of the non-parent participants, in input order
(the `children` slice built by the loop in `ComputeNextParticipant`). -/
def childNames (participants : List Participant) : List String :=
  (participants.filter (fun p => !p.isParent)).map (fun p => p.name)

/-- Names of the parent participants, in input order
(the `parents` slice built by the loop in `ComputeNextParticipant`). -/
def parentNames (participants : List Participant) : List String :=
  (participants.filter (fun p => p.isParent)).map (fun p => p.name)

/-- Function `ComputeNextParticipant` from `internal/bot/rotation.go`.

Determines who should read next based on rotation logic:
children rotate in list order; after the last child a parent (or the first
two parents joined with " or ") is suggested; after a parent, or with no
history, or with an unknown last participant, the first child is suggested. -/
def ComputeNextParticipant (participants : List Participant)
    (lastParticipantName : String) : String :=
  if participants.isEmpty then ""
  else
    let children := childNames participants
    let parents := parentNames participants
    if children.isEmpty then ""
    else if lastParticipantName = "" then children.headD ""
    else if parents.contains lastParticipantName then children.headD ""
    else
      match children.findIdx? (fun c => c = lastParticipantName) with
      | some i =>
        if i = children.length - 1 then
          match parents with
          | [] => children.headD ""
          | [p] => p
          | p1 :: p2 :: _ => p1 ++ " or " ++ p2
        else children.getD (i + 1) ""
      | none => children.headD ""

/-! Branch lemmas for `ComputeNextParticipant`, matching the order of the
checks in the Go function. -/

theorem childNames_ne_nil_of_mem {ps : List Participant} {x : String}
    (hx : x ∈ childNames ps) : ¬ ps.isEmpty := by
  intro h
  rw [List.isEmpty_iff] at h
  subst h
  simp [childNames] at hx

theorem cnp_empty_last {ps : List Participant}
    (h : childNames ps ≠ []) :
    ComputeNextParticipant ps "" = (childNames ps).headD "" := by
  have hps : ¬ ps.isEmpty := by
    intro he
    rw [List.isEmpty_iff] at he
    subst he
    simp [childNames] at h
  have hch : ¬ (childNames ps).isEmpty := by
    simpa [List.isEmpty_iff] using h
  simp [ComputeNextParticipant, hps, hch]

theorem cnp_parent {ps : List Participant} {x : String}
    (h : childNames ps ≠ []) (hx : (parentNames ps).contains x = true) :
    ComputeNextParticipant ps x = (childNames ps).headD "" := by
  have hps : ¬ ps.isEmpty := by
    intro he
    rw [List.isEmpty_iff] at he
    subst he
    simp [childNames] at h
  have hch : ¬ (childNames ps).isEmpty := by
    simpa [List.isEmpty_iff] using h
  have hx' : x ∈ parentNames ps := by simpa using hx
  by_cases hemp : x = ""
  · simp [ComputeNextParticipant, hps, hch, hemp]
  · simp [ComputeNextParticipant, hps, hch, hemp, hx']

theorem cnp_unknown {ps : List Participant} {x : String}
    (h : childNames ps ≠ []) (hemp : x ≠ "")
    (hpar : (parentNames ps).contains x = false)
    (hch : (childNames ps).findIdx? (fun c => c = x) = none) :
    ComputeNextParticipant ps x = (childNames ps).headD "" := by
  have hps : ¬ ps.isEmpty := by
    intro he
    rw [List.isEmpty_iff] at he
    subst he
    simp [childNames] at h
  have hch' : ¬ (childNames ps).isEmpty := by
    simpa [List.isEmpty_iff] using h
  have hpar' : x ∉ parentNames ps := by simpa using hpar
  simp [ComputeNextParticipant, hps, hch', hemp, hpar', hch]

theorem cnp_child {ps : List Participant} {x : String} {i : Nat}
    (hemp : x ≠ "")
    (hpar : (parentNames ps).contains x = false)
    (hch : (childNames ps).findIdx? (fun c => c = x) = some i) :
    ComputeNextParticipant ps x =
      (if i = (childNames ps).length - 1 then
        match parentNames ps with
        | [] => (childNames ps).headD ""
        | [p] => p
        | p1 :: p2 :: _ => p1 ++ " or " ++ p2
      else (childNames ps).getD (i + 1) "") := by
  have hmem : x ∈ childNames ps := by
    have := List.findIdx?_eq_some_iff_findIdx_eq.mp hch
    have hi : i < (childNames ps).length := this.1
    have := List.findIdx?_eq_some_iff_getElem.mp hch
    obtain ⟨hlen, heq, -⟩ := this
    have : (childNames ps)[i] = x := by
      have := heq
      simpa using of_decide_eq_true (by simpa using this)
    rw [← this]
    exact List.getElem_mem _
  have h : childNames ps ≠ [] := by
    intro he
    rw [he] at hmem
    exact absurd hmem (List.not_mem_nil x)
  have hps : ¬ ps.isEmpty := by
    intro he
    rw [List.isEmpty_iff] at he
    subst he
    simp [childNames] at h
  have hch' : ¬ (childNames ps).isEmpty := by
    simpa [List.isEmpty_iff] using h
  have hpar' : x ∉ parentNames ps := by simpa using hpar
  simp [ComputeNextParticipant, hps, hch', hemp, hpar', hch]

theorem headD_le_of_sorted {l : List String}
    (hs : List.Sorted (· ≤ ·) l) (hne : l ≠ []) :
    l.headD "" ∈ l ∧ ∀ y ∈ l, l.headD "" ≤ y := by
  match l, hne with
  | c :: rest, _ =>
    rw [List.sorted_cons] at hs
    refine ⟨List.mem_cons_self c rest, ?_⟩
    intro y hy
    rcases List.mem_cons.mp hy with h | h
    · subst h; exact le_refl _
    · exact hs.1 y h

/-- C5, amended: with the follows (non-parent) sublist sorted ascending by
name — the order the upstream `ListParticipants` query guarantees (`ORDER BY
name`) and the rotation code's own comment assumes — and non-empty, and
`lastParticipantName = ""`, `ComputeNextParticipant` returns the
lexicographically smallest follows name. -/
theorem C5_next_after_no_history_is_min (ps : List Participant)
    (hs : List.Sorted (· ≤ ·) (childNames ps))
    (hne : childNames ps ≠ []) :
    ComputeNextParticipant ps "" ∈ childNames ps ∧
      ∀ y ∈ childNames ps, ComputeNextParticipant ps "" ≤ y := by
  rw [cnp_empty_last hne]
  exact headD_le_of_sorted hs hne

/-- Witness for C5 at a concrete sorted input. -/
theorem C5_next_after_no_history_is_min_witness :
    ComputeNextParticipant
        [⟨"Alice", false⟩, ⟨"Bob", false⟩, ⟨"Mom", true⟩] "" ∈
      childNames [⟨"Alice", false⟩, ⟨"Bob", false⟩, ⟨"Mom", true⟩] ∧
    ∀ y ∈ childNames [⟨"Alice", false⟩, ⟨"Bob", false⟩, ⟨"Mom", true⟩],
      ComputeNextParticipant
        [⟨"Alice", false⟩, ⟨"Bob", false⟩, ⟨"Mom", true⟩] "" ≤ y :=
  C5_next_after_no_history_is_min _
    (by
      rw [show childNames [⟨"Alice", false⟩, ⟨"Bob", false⟩, ⟨"Mom", true⟩] =
          ["Alice", "Bob"] from by decide]
      refine List.Pairwise.cons ?_ (List.pairwise_singleton _ _)
      intro y hy
      rcases List.mem_singleton.mp hy with h
      subst h
      rw [String.le_iff_toList_le]
      decide)
    (by decide)

/-- C5, counterexample to the claim as stated: without the sortedness
precondition, `ComputeNextParticipant` returns the first follows entry in
input order, not the lexicographically smallest one. -/
theorem C5_counterexample_unsorted :
    ComputeNextParticipant [⟨"Bob", false⟩, ⟨"Alice", false⟩] "" = "Bob" ∧
    childNames [⟨"Bob", false⟩, ⟨"Alice", false⟩] ≠ [] ∧
    ¬ (∀ y ∈ childNames [⟨"Bob", false⟩, ⟨"Alice", false⟩],
        ComputeNextParticipant [⟨"Bob", false⟩, ⟨"Alice", false⟩] "" ≤ y) := by
  refine ⟨by decide, by decide, ?_⟩
  intro h
  have := h "Alice" (by decide)
  rw [show ComputeNextParticipant [⟨"Bob", false⟩, ⟨"Alice", false⟩] "" = "Bob"
    from by decide] at this
  rw [String.le_iff_toList_le] at this
  exact absurd this (by decide)

theorem nodup_findIdx {l : List String} {i : Nat} {a : String}
    (hnd : l.Nodup) (h : l[i]? = some a) :
    l.findIdx? (fun c => c = a) = some i := by
  induction l generalizing i with
  | nil => simp at h
  | cons x xs ih =>
    rcases i with _ | j
    · simp at h
      subst h
      simp [List.findIdx?_cons]
    · have hj : xs[j]? = some a := by simpa using h
      have hamem : a ∈ xs := by
        have := List.getElem?_eq_some_iff.mp hj
        obtain ⟨hlt, heq⟩ := this
        rw [← heq]
        exact List.getElem_mem _
      have hxa : x ≠ a := by
        intro hcontra
        subst hcontra
        exact (List.nodup_cons.mp hnd).1 hamem
      have := ih (List.nodup_cons.mp hnd).2 hj
      simp [List.findIdx?_cons, hxa, this]

/-- Since `childNames` and `parentNames` are maps over complementary filters
of the same list, distinct overall names make them disjoint. -/
theorem child_names_disjoint {ps : List Participant}
    (hnd : (ps.map (fun p => p.name)).Nodup) :
    (childNames ps).Nodup ∧ ∀ x ∈ childNames ps, x ∉ parentNames ps := by
  have hperm : (ps.filter (fun p => p.isParent) ++
      ps.filter (fun p => !p.isParent)).Perm ps :=
    List.filter_append_perm _ ps
  have hperm' : ((ps.filter (fun p => p.isParent)).map (fun p => p.name) ++
      (ps.filter (fun p => !p.isParent)).map (fun p => p.name)).Perm
      (ps.map (fun p => p.name)) := by
    rw [← List.map_append]
    exact hperm.map _
  have hnd' : (parentNames ps ++ childNames ps).Nodup :=
    hperm'.nodup_iff.mpr hnd
  rw [List.nodup_append] at hnd'
  exact ⟨hnd'.2.1, fun x hx hpx => hnd'.2.2 hpx hx⟩

/-- The demo family from the spec scenario. -/
def demoPeople : List Participant :=
  [⟨"Alice", false⟩, ⟨"Bob", false⟩, ⟨"Mom", true⟩]

/-- C6, amended: provided the participant names are pairwise distinct and the
matched name is non-empty, when `lastParticipantName` is the follows entry at
position `i`, `ComputeNextParticipant` returns `follows[i+1]` if `i` is not
last; if `i` is last it returns the single leads name, the first two leads
names joined with " or ", or wraps to `follows[0]` when there are no leads.
The spec's Alice/Bob/Mom scenario holds as stated. -/
theorem C6_follows_rotation (ps : List Participant) (last : String) (i : Nat)
    (hnd : (ps.map (fun p => p.name)).Nodup)
    (hlast : last ≠ "")
    (hget : (childNames ps)[i]? = some last) :
    ComputeNextParticipant ps last =
      (if i = (childNames ps).length - 1 then
        match parentNames ps with
        | [] => (childNames ps).headD ""
        | [p] => p
        | p1 :: p2 :: _ => p1 ++ " or " ++ p2
      else (childNames ps).getD (i + 1) "") ∧
    ComputeNextParticipant demoPeople "" = "Alice" ∧
    ComputeNextParticipant demoPeople "Bob" = "Mom" ∧
    ComputeNextParticipant demoPeople "Mom" = "Alice" := by
  obtain ⟨hchnd, hdisj⟩ := child_names_disjoint hnd
  have hmem : last ∈ childNames ps := by
    obtain ⟨hlt, heq⟩ := List.getElem?_eq_some_iff.mp hget
    rw [← heq]
    exact List.getElem_mem _
  have hpar : (parentNames ps).contains last = false := by
    simpa using hdisj last hmem
  have hfind : (childNames ps).findIdx? (fun c => c = last) = some i :=
    nodup_findIdx hchnd hget
  exact ⟨cnp_child hlast hpar hfind, by decide, by decide, by decide⟩

/-- Witness for C6 at the concrete demo input (`last = "Bob"`, position 1). -/
theorem C6_follows_rotation_witness :
    ComputeNextParticipant demoPeople "Bob" =
      (if 1 = (childNames demoPeople).length - 1 then
        match parentNames demoPeople with
        | [] => (childNames demoPeople).headD ""
        | [p] => p
        | p1 :: p2 :: _ => p1 ++ " or " ++ p2
      else (childNames demoPeople).getD (1 + 1) "") ∧
    ComputeNextParticipant demoPeople "" = "Alice" ∧
    ComputeNextParticipant demoPeople "Bob" = "Mom" ∧
    ComputeNextParticipant demoPeople "Mom" = "Alice" :=
  C6_follows_rotation demoPeople "Bob" 1 (by decide) (by decide) (by decide)

/-- C6, counterexample to the claim as stated: a name occurring both as a
leads and as a follows entry is routed by the leads check first, so the
follows-position case analysis of the claim fails for it. Here "X" is the
last follows entry and there is exactly one leads entry, so the claim as
stated demands the leads name "X"; the program returns "A". -/
theorem C6_counterexample :
    (childNames [⟨"X", true⟩, ⟨"A", false⟩, ⟨"X", false⟩])[1]? = some "X" ∧
    1 = (childNames [⟨"X", true⟩, ⟨"A", false⟩, ⟨"X", false⟩]).length - 1 ∧
    parentNames [⟨"X", true⟩, ⟨"A", false⟩, ⟨"X", false⟩] = ["X"] ∧
    ComputeNextParticipant [⟨"X", true⟩, ⟨"A", false⟩, ⟨"X", false⟩] "X" = "A" ∧
    "A" ≠ "X" := by
  decide

/-- Any value that is not a follows name is mapped to the first follows name
in one step (empty history, leads names, and unknown names all reset). -/
theorem cnp_reset {ps : List Participant} {v : String}
    (hne : childNames ps ≠ []) (hv : v ∉ childNames ps) :
    ComputeNextParticipant ps v = (childNames ps).headD "" := by
  by_cases hemp : v = ""
  · subst hemp
    exact cnp_empty_last hne
  · by_cases hpar : v ∈ parentNames ps
    · exact cnp_parent hne (by simpa using hpar)
    · have hfind : (childNames ps).findIdx? (fun c => c = v) = none := by
        rw [List.findIdx?_eq_none_iff]
        intro c hc
        simp only [decide_eq_false_iff_not]
        intro hcv
        subst hcv
        exact hv hc
      exact cnp_unknown hne hemp (by simpa using hpar) hfind

/-- C7, amended: provided the follows names are pairwise distinct and (when
there are two or more leads) the tie-break hint string `leads[0] ++ " or " ++
leads[1]` is not itself a follows name, iterating the rotation map from any
starting name reaches the first follows entry after finitely many steps. -/
theorem C7_rotation_cycle_closes (ps : List Participant)
    (hnd : (childNames ps).Nodup)
    (hne : childNames ps ≠ [])
    (hjoin : ∀ p1 p2 rest, parentNames ps = p1 :: p2 :: rest →
      (p1 ++ " or " ++ p2) ∉ childNames ps)
    (x : String) :
    ∃ n : Nat, 1 ≤ n ∧
      (fun s => ComputeNextParticipant ps s)^[n] x =
        (childNames ps).headD "" := by
  set f := fun s => ComputeNextParticipant ps s with hf
  set c0 := (childNames ps).headD "" with hc0
  have hreach1 : ∀ v : String, v ∉ childNames ps → f v = c0 := by
    intro v hv
    exact cnp_reset hne hv
  -- one application of f from a follows position
  have hstep : ∀ i : Nat, i < (childNames ps).length →
      f ((childNames ps).getD i "") = c0 ∨
      f (f ((childNames ps).getD i "")) = c0 ∨
      (i + 1 < (childNames ps).length ∧
        f ((childNames ps).getD i "") = (childNames ps).getD (i + 1) "") := by
    intro i hi
    set v := (childNames ps).getD i "" with hv
    by_cases hvpar : v ∈ parentNames ps
    · left
      exact cnp_parent hne (by simpa using hvpar)
    by_cases hvemp : v = ""
    · left
      rw [hvemp]
      exact cnp_empty_last hne
    have hget : (childNames ps)[i]? = some v := by
      rw [hv, List.getD_eq_getElem?_getD, List.getElem?_eq_getElem hi]
      rfl
    have hfind : (childNames ps).findIdx? (fun c => c = v) = some i :=
      nodup_findIdx hnd hget
    have hbranch := cnp_child hvemp (by simpa using hvpar) hfind
    by_cases hlastpos : i = (childNames ps).length - 1
    · rw [if_pos hlastpos] at hbranch
      match hpar : parentNames ps with
      | [] =>
        left
        show ComputeNextParticipant ps v = c0
        rw [hbranch, hpar]
      | [p] =>
        right; left
        show f (ComputeNextParticipant ps v) = c0
        rw [hbranch, hpar]
        exact cnp_parent hne (by simp [hpar])
      | p1 :: p2 :: rest =>
        right; left
        show f (ComputeNextParticipant ps v) = c0
        rw [hbranch, hpar]
        exact hreach1 _ (hjoin p1 p2 rest hpar)
    · right; right
      have hi1 : i + 1 < (childNames ps).length := by
        have hlen : (childNames ps).length ≠ 0 := by
          intro h0
          rw [h0] at hi
          exact absurd hi (by omega)
        omega
      refine ⟨hi1, ?_⟩
      show ComputeNextParticipant ps v = (childNames ps).getD (i + 1) ""
      rw [hbranch, if_neg hlastpos]
  -- induction on the remaining distance to the end of the follows list
  have key : ∀ k : Nat, ∀ i : Nat, i < (childNames ps).length →
      (childNames ps).length - i ≤ k →
      ∃ n : Nat, 1 ≤ n ∧ f^[n] ((childNames ps).getD i "") = c0 := by
    intro k
    induction k with
    | zero =>
      intro i hi hk
      omega
    | succ k ih =>
      intro i hi hk
      rcases hstep i hi with h1 | h2 | ⟨hi1, hnext⟩
      · exact ⟨1, le_refl 1, by simpa using h1⟩
      · refine ⟨2, by omega, ?_⟩
        show f^[2] _ = c0
        rw [show (2 : Nat) = 1 + 1 from rfl, Function.iterate_add_apply]
        simpa using h2
      · obtain ⟨n, hn1, hiter⟩ := ih (i + 1) hi1 (by omega)
        refine ⟨n + 1, by omega, ?_⟩
        rw [Function.iterate_succ_apply, hnext]
        exact hiter
  by_cases hx : x ∈ childNames ps
  · obtain ⟨i, hi, hxi⟩ := List.getElem_of_mem hx
    have hxd : (childNames ps).getD i "" = x := by
      rw [List.getD_eq_getElem?_getD, List.getElem?_eq_getElem hi]
      simpa using hxi
    obtain ⟨n, hn1, hiter⟩ := key ((childNames ps).length) i hi (by omega)
    exact ⟨n, hn1, by rw [← hxd]; exact hiter⟩
  · exact ⟨1, le_refl 1, by simpa using hreach1 x hx⟩

/-- Witness for C7 at the concrete demo input. -/
theorem C7_rotation_cycle_closes_witness :
    ∃ n : Nat, 1 ≤ n ∧
      (fun s => ComputeNextParticipant demoPeople s)^[n] "Bob" =
        (childNames demoPeople).headD "" :=
  C7_rotation_cycle_closes demoPeople (by decide) (by decide)
    (by intro p1 p2 rest h; simp [parentNames, demoPeople] at h) "Bob"

/-- C7, counterexample to the claim as stated: with a follows participant
literally named "Mom or Dad" and two leads "Mom" and "Dad", the rotation map
has that name as a fixed point, so iteration never produces the first follows
entry "X". -/
theorem C7_counterexample :
    childNames [⟨"X", false⟩, ⟨"Mom or Dad", false⟩, ⟨"Mom", true⟩,
        ⟨"Dad", true⟩] ≠ [] ∧
    ComputeNextParticipant [⟨"X", false⟩, ⟨"Mom or Dad", false⟩, ⟨"Mom", true⟩,
        ⟨"Dad", true⟩] "Mom or Dad" = "Mom or Dad" ∧
    ∀ n : Nat, 1 ≤ n →
      (fun s => ComputeNextParticipant [⟨"X", false⟩, ⟨"Mom or Dad", false⟩,
          ⟨"Mom", true⟩, ⟨"Dad", true⟩] s)^[n] "Mom or Dad" ≠
        (childNames [⟨"X", false⟩, ⟨"Mom or Dad", false⟩, ⟨"Mom", true⟩,
          ⟨"Dad", true⟩]).headD "" := by
  refine ⟨by decide, by decide, ?_⟩
  intro n hn
  rw [Function.iterate_fixed (by decide)]
  decide

/-! ### Strings, numbers and dates

Helpers mirroring the Go standard-library calls the handlers make:
`strconv.Atoi`, `strings.TrimPrefix`, `strings.ToLower`,
`time.Parse("2006-01-02", ...)`, `time.Parse("2006-01", ...)`,
`time.AddDate`, `time.Format("2006-01-02")`. -/

/-- Model of `strconv.Atoi`: optional sign, one or more digits, nothing else, and the
value must fit in a 64-bit int (out-of-range inputs return an error). -/
def goAtoi (s : String) : Option Int :=
  let cs := s.toList
  let signed : Bool × List Char :=
    match cs with
    | '-' :: rest => (true, rest)
    | '+' :: rest => (false, rest)
    | _ => (false, cs)
  let digits := signed.2
  if digits.isEmpty then none
  else if digits.all Char.isDigit then
    let v : Nat := digits.foldl (fun acc ch => acc * 10 + (ch.toNat - '0'.toNat)) 0
    let iv : Int := if signed.1 then -(v : Int) else (v : Int)
    if -(2 ^ 63) ≤ iv ∧ iv < 2 ^ 63 then some iv else none
  else none

/-- Keep the part of `s` before the first occurrence of `c`
(`strings.Index` + slice, as done in the command-token extraction). -/
def cutAt (c : Char) (s : List Char) : List Char :=
  s.takeWhile (fun x => x ≠ c)

/-- Model of `strings.TrimPrefix`. -/
def goTrimPre (p s : String) : String :=
  if s.toList.take p.toList.length = p.toList then
    String.mk (s.toList.drop p.toList.length)
  else s

/-- Model of `strings.ToLower` (ASCII case mapping; the only comparison made with it
in the program is against the ASCII literal "today"). -/
def goToLower (s : String) : String :=
  String.mk (s.toList.map Char.toLower)

/-- Days in a month, with the Gregorian leap rule (`time.daysIn`). -/
def daysInMonth (y m : Int) : Int :=
  if m = 2 then
    if y % 4 = 0 ∧ (y % 100 ≠ 0 ∨ y % 400 = 0) then 29 else 28
  else if m = 4 ∨ m = 6 ∨ m = 9 ∨ m = 11 then 30
  else 31

/-- Digit list to number. -/
def digitsToNat (ds : List Char) : Nat :=
  ds.foldl (fun acc ch => acc * 10 + (ch.toNat - '0'.toNat)) 0

/-- Model of `time.Parse("2006-01-02", s)`: exactly four digits, dash, two digits,
dash, two digits, with the month in 1..12 and the day in range for that
month and year; anything else is a parse error. -/
def parseYYYYMMDD (s : String) : Option GoDate :=
  match s.toList with
  | [y1, y2, y3, y4, h1, m1, m2, h2, d1, d2] =>
    if ([y1, y2, y3, y4, m1, m2, d1, d2].all Char.isDigit) ∧
        h1 = '-' ∧ h2 = '-' then
      let y : Int := (digitsToNat [y1, y2, y3, y4] : Int)
      let m : Int := (digitsToNat [m1, m2] : Int)
      let d : Int := (digitsToNat [d1, d2] : Int)
      if 1 ≤ m ∧ m ≤ 12 ∧ 1 ≤ d ∧ d ≤ daysInMonth y m then
        some ⟨y, m, d⟩
      else none
    else none
  | _ => none

/-- Model of `time.Parse("2006-01", s)`: exactly four digits, dash, two digits, with
the month in 1..12. -/
def parseYYYYMM (s : String) : Option (Int × Int) :=
  match s.toList with
  | [y1, y2, y3, y4, h1, m1, m2] =>
    if ([y1, y2, y3, y4, m1, m2].all Char.isDigit) ∧ h1 = '-' then
      let y : Int := (digitsToNat [y1, y2, y3, y4] : Int)
      let m : Int := (digitsToNat [m1, m2] : Int)
      if 1 ≤ m ∧ m ≤ 12 then some (y, m) else none
    else none
  | _ => none

/-- Rata-die style day number of a civil date (days since 1970-01-01);
tolerates out-of-range day fields linearly, as `time.Date` normalisation
does. -/
def daysFromCivil (t : GoDate) : Int :=
  let y := if t.month ≤ 2 then t.year - 1 else t.year
  let era := Int.ediv y 400
  let yoe := y - era * 400
  let moff := if t.month > 2 then t.month - 3 else t.month + 9
  let doy := Int.ediv (153 * moff + 2) 5 + t.day - 1
  let doe := yoe * 365 + Int.ediv yoe 4 - Int.ediv yoe 100 + doy
  era * 146097 + doe - 719468

/-- Civil date from a day number (inverse of `daysFromCivil`). -/
def civilFromDays (z0 : Int) : GoDate :=
  let z := z0 + 719468
  let era := Int.ediv z 146097
  let doe := z - era * 146097
  let yoe := Int.ediv (doe - Int.ediv doe 1460 + Int.ediv doe 36524 -
    Int.ediv doe 146096) 365
  let y := yoe + era * 400
  let doy := doe - (365 * yoe + Int.ediv yoe 4 - Int.ediv yoe 100)
  let mp := Int.ediv (5 * doy + 2) 153
  let d := doy - Int.ediv (153 * mp + 2) 5 + 1
  let m := if mp < 10 then mp + 3 else mp - 9
  ⟨if m ≤ 2 then y + 1 else y, m, d⟩

/-- Model of `time.AddDate(years, months, days)` with Go's normalisation. -/
def goAddDate (t : GoDate) (years months days : Int) : GoDate :=
  let total := t.month + months - 1
  let y := t.year + years + Int.ediv total 12
  let m := Int.emod total 12 + 1
  civilFromDays (daysFromCivil ⟨y, m, t.day⟩ + days)

/-- Zero-pad to two digits. -/
def pad2 (n : Int) : String :=
  if 0 ≤ n ∧ n < 10 then "0" ++ toString n else toString n

/-- Zero-pad to four digits. -/
def pad4 (n : Int) : String :=
  if 0 ≤ n ∧ n < 10 then "000" ++ toString n
  else if 0 ≤ n ∧ n < 100 then "00" ++ toString n
  else if 0 ≤ n ∧ n < 1000 then "0" ++ toString n
  else toString n

/-- Model of `time.Format("2006-01-02")`. -/
def formatDate (t : GoDate) : String :=
  pad4 t.year ++ "-" ++ pad2 t.month ++ "-" ++ pad2 t.day

/-- Model of `time.Format("January 2006")`, used for the month period label. -/
def monthName (m : Int) : String :=
  if m = 1 then "January" else if m = 2 then "February"
  else if m = 3 then "March" else if m = 4 then "April"
  else if m = 5 then "May" else if m = 6 then "June"
  else if m = 7 then "July" else if m = 8 then "August"
  else if m = 9 then "September" else if m = 10 then "October"
  else if m = 11 then "November" else "December"

/-! ### Conversation state, effects and the storage collaborator -/

/-- A typed value in the open `map[string]interface{}` conversation data. -/
inductive DVal where
  | vDate : GoDate → DVal
  | vStr : String → DVal
  | vBool : Bool → DVal
deriving DecidableEq, Repr

/-- The `Data` map of a conversation (string-keyed). -/
abbrev DataMap := List (String × DVal)

def dmGet (m : DataMap) (k : String) : Option DVal :=
  (m.find? (fun kv => kv.1 = k)).map (fun kv => kv.2)

def dmDel (m : DataMap) (k : String) : DataMap :=
  m.filter (fun kv => kv.1 ≠ k)

def dmSet (m : DataMap) (k : String) (v : DVal) : DataMap :=
  (k, v) :: dmDel m k

/-- Record `ConversationState` from `internal/bot/types.go`. -/
structure ConversationState where
  command : String
  step : Int
  data : DataMap
  messageThreadID : Int
deriving DecidableEq, Repr

/-- The `states` map (`map[int64]*ConversationState`), observed through
get/set/delete. -/
abbrev StateTable := List (Int × ConversationState)

def tableGet (t : StateTable) (uid : Int) : Option ConversationState :=
  (t.find? (fun kv => kv.1 = uid)).map (fun kv => kv.2)

def tableDel (t : StateTable) (uid : Int) : StateTable :=
  t.filter (fun kv => kv.1 ≠ uid)

def tableSet (t : StateTable) (uid : Int) (st : ConversationState) : StateTable :=
  (uid, st) :: tableDel t uid

/-- An outbound Telegram send: target chat, thread, body text, and the
callback payloads of any inline-keyboard buttons attached (flattened). -/
structure SentMsg where
  chatID : Int
  threadID : Int
  text : String
  buttons : List String
deriving DecidableEq, Repr

/-- A mutating call made to the storage collaborator. -/
inductive StoreWrite where
  | createBook : String → StoreWrite
  | createEvent : GoDate → String → String → StoreWrite
deriving DecidableEq, Repr

/-- Observable effects of handling one event. -/
structure Effects where
  msgs : List SentMsg
  writes : List StoreWrite
deriving DecidableEq, Repr

def Effects.nil : Effects := ⟨[], []⟩

def Effects.seq (a b : Effects) : Effects :=
  ⟨a.msgs ++ b.msgs, a.writes ++ b.writes⟩

/-- One plain text message, no buttons, no writes. -/
def msg1 (chatID threadID : Int) (text : String) : Effects :=
  ⟨[⟨chatID, threadID, text, []⟩], []⟩

/-- One message carrying an inline keyboard. -/
def msgButtons (chatID threadID : Int) (text : String)
    (buttons : List String) : Effects :=
  ⟨[⟨chatID, threadID, text, buttons⟩], []⟩

/-- Snapshot of the storage collaborator: the result each call would return
during the handling of one event (the handlers never retry). -/
structure DB where
  listReadableBooks : Except String (List Book)
  listParticipants : Except String (List Participant)
  getLastEvents : Int → Except String (List Event)
  createBookRes : String → Except String String
  createEventRes : Except String Unit
  getTopBooks : Int → GoDate → GoDate → String → Except String (List BookStat)

/-- A Go panic raised inside a handler (the failed type assertions on the
conversation `Data` map are the panics this code can raise). -/
inductive Fault where
  | typeAssert : String → Fault
deriving DecidableEq, Repr

/-- Result of a per-state handler: the (possibly partially) mutated state,
the effects produced before returning or panicking, and the panic if one
was raised. -/
abbrev HandlerResult := ConversationState × Effects × Option Fault

/-- Callback query (`models.CallbackQuery`): sender, payload and the chat of
the message the keyboard was attached to (absent for inaccessible
messages). -/
structure CallbackQuery where
  fromID : Int
  data : String
  msgChat : Option Int
deriving DecidableEq, Repr

/-- Helper `getChatIDFromQuery` from `internal/bot/callbacks.go`. -/
def getChatIDFromQuery (q : CallbackQuery) : Int :=
  match q.msgChat with
  | some c => c
  | none => 0

/-- Does `s` start with `p`? (`strings.HasPrefix`). -/
def strStarts (p s : String) : Bool :=
  s.toList.take p.toList.length == p.toList

/-! ### Inline-keyboard callback handlers (`internal/bot/callbacks.go`) -/

/-- Model of `handleDateCallback`: date selection for the read dialog. -/
def handleDateCallback (db : DB) (now : GoDate) (q : CallbackQuery)
    (st : ConversationState) : HandlerResult :=
  let data := goTrimPre "date:" q.data
  if data = "custom" then
    ({ st with data := dmSet st.data "awaiting_custom_date" (DVal.vBool true) },
     msg1 (getChatIDFromQuery q) st.messageThreadID
       "📝 Please enter the date in format YYYY-MM-DD\n\nExample: 2024-01-15",
     none)
  else
    let dateOpt : Option GoDate :=
      if data = "today" then some now
      else if data = "yesterday" then some (goAddDate now 0 0 (-1))
      else if data = "2daysago" then some (goAddDate now 0 0 (-2))
      else if data = "3daysago" then some (goAddDate now 0 0 (-3))
      else none
    match dateOpt with
    | none => (st, Effects.nil, none)
    | some date =>
      let st2 := { st with
        data := dmSet st.data "date" (DVal.vDate date)
        step := 2 }
      match db.listReadableBooks with
      | .error e =>
        ({ st2 with step := -1 },
         msg1 (getChatIDFromQuery q) st.messageThreadID ("Error: " ++ e),
         none)
      | .ok books =>
        (st2,
         msgButtons (getChatIDFromQuery q) st.messageThreadID
           "📚 Select a book:"
           (((List.range books.length).map (fun i => "book:" ++ toString i))),
         none)

/-- Model of `handleBookCallback`: book selection for the read dialog. An invalid
index (or a failed book-list fetch) sends an error and aborts the dialog
with `step = -1`. -/
def handleBookCallback (db : DB) (q : CallbackQuery)
    (st : ConversationState) : HandlerResult :=
  let indexStr := goTrimPre "book:" q.data
  match goAtoi indexStr with
  | none => (st, Effects.nil, none)
  | some bookIdx =>
    match db.listReadableBooks with
    | .error _ =>
      ({ st with step := -1 },
       msg1 (getChatIDFromQuery q) st.messageThreadID
         "Error: Invalid book selection", none)
    | .ok books =>
      if bookIdx < 0 ∨ (books.length : Int) ≤ bookIdx then
        ({ st with step := -1 },
         msg1 (getChatIDFromQuery q) st.messageThreadID
           "Error: Invalid book selection", none)
      else
        let selectedBook := books.getD bookIdx.toNat ⟨"", false, []⟩
        let st2 := { st with
          data := dmSet st.data "book" (DVal.vStr selectedBook.name)
          step := 3 }
        match db.listParticipants with
        | .error e =>
          ({ st2 with step := -1 },
           msg1 (getChatIDFromQuery q) st.messageThreadID ("Error: " ++ e),
           none)
        | .ok participants =>
          (st2,
           msgButtons (getChatIDFromQuery q) st.messageThreadID
             "👤 Select a participant:"
             (participants.map (fun p => "participant:" ++ p.name)),
           none)

/-- Model of `handleParticipantCallback`: participant selection; records the event.
The `Data` lookups are Go type assertions and panic when the key is absent
or of the wrong type. -/
def handleParticipantCallback (db : DB) (q : CallbackQuery)
    (st : ConversationState) : HandlerResult :=
  let participantName := goTrimPre "participant:" q.data
  match dmGet st.data "date" with
  | some (DVal.vDate date) =>
    match dmGet st.data "book" with
    | some (DVal.vStr bookName) =>
      let write := StoreWrite.createEvent date bookName participantName
      match db.createEventRes with
      | .error e =>
        ({ st with step := -1 },
         ⟨[⟨getChatIDFromQuery q, st.messageThreadID,
            "Error creating event: " ++ e, []⟩], [write]⟩,
         none)
      | .ok _ =>
        ({ st with step := -1 },
         ⟨[⟨getChatIDFromQuery q, st.messageThreadID,
            "✅ Reading event recorded!\n\n📅 Date: " ++ formatDate date ++
              "\n📚 Book: " ++ bookName ++ "\n👤 Reader: " ++ participantName,
            []⟩], [write]⟩,
         none)
    | _ => (st, Effects.nil, some (Fault.typeAssert "book"))
  | _ => (st, Effects.nil, some (Fault.typeAssert "date"))

/-- Model of `showParticipantSelectionForStats`. -/
def showParticipantSelectionForStats (db : DB) (chatID threadID : Int) :
    Effects :=
  match db.listParticipants with
  | .error e => msg1 chatID threadID ("Error: " ++ e)
  | .ok participants =>
    let children := (participants.filter (fun p => !p.isParent)).map
      (fun p => p.name)
    msgButtons chatID threadID "👥 Select participant:"
      ("stats_participant:" :: children.map
        (fun c => "stats_participant:" ++ c))

/-- The text of the statistics report (`generateAndSendStatsReport`). -/
def statsReportText (startDate endDate : GoDate) (periodLabel
    participantName : String) (stats : List BookStat) : String :=
  "📊 Reading Statistics\n\n" ++
  "📅 Period: " ++ periodLabel ++ "\n" ++
  "   " ++ formatDate startDate ++ " - " ++ formatDate endDate ++ "\n\n" ++
  (if participantName = "" then "👥 Participant: All children\n\n"
   else "👥 Participant: " ++ participantName ++ "\n\n") ++
  "📚 Top 10 Books:\n\n" ++
  String.join (stats.enum.map (fun si =>
    toString (si.1 + 1) ++ ". " ++ si.2.bookName ++ " - " ++
      toString si.2.readCount ++ " reads\n"))

/-- Model of `generateAndSendStatsReport`. -/
def generateAndSendStatsReport (db : DB) (chatID : Int)
    (startDate endDate : GoDate) (periodLabel participantName : String)
    (threadID : Int) : Effects :=
  match db.getTopBooks 10 startDate endDate participantName with
  | .error e => msg1 chatID threadID ("Error: " ++ e)
  | .ok stats =>
    if stats.isEmpty then
      msg1 chatID threadID "No reading events found for the selected period."
    else
      msg1 chatID threadID
        (statsReportText startDate endDate periodLabel participantName stats)

/-- Model of `handleStatsPeriodCallback`. -/
def handleStatsPeriodCallback (db : DB) (now : GoDate) (q : CallbackQuery)
    (st : ConversationState) : HandlerResult :=
  let periodType := goTrimPre "stats_period:" q.data
  if periodType = "month" then
    ({ st with data := dmSet st.data "awaiting_month" (DVal.vBool true) },
     msg1 (getChatIDFromQuery q) st.messageThreadID
       "📝 Please enter the month in format YYYY-MM\n\nExample: 2024-11",
     none)
  else if periodType = "year" then
    ({ st with data := dmSet st.data "awaiting_year" (DVal.vBool true) },
     msg1 (getChatIDFromQuery q) st.messageThreadID
       "📝 Please enter the year\n\nExample: 2024",
     none)
  else
    let sel : Option (Int × String) :=
      if periodType = "last2" then some (2, "Last 2 months")
      else if periodType = "last3" then some (3, "Last 3 months")
      else if periodType = "last6" then some (6, "Last 6 months")
      else if periodType = "last12" then some (12, "Last 12 months")
      else none
    match sel with
    | none => (st, Effects.nil, none)
    | some kl =>
      let startDate := goAddDate now 0 (-kl.1) 0
      let endDate := now
      let st2 := { st with
        data := dmSet (dmSet (dmSet st.data "period_label" (DVal.vStr kl.2))
          "start_date" (DVal.vDate startDate)) "end_date" (DVal.vDate endDate)
        step := 2 }
      (st2,
       showParticipantSelectionForStats db (getChatIDFromQuery q)
         st.messageThreadID,
       none)

/-- Model of `handleStatsParticipantCallback`; the three `Data` lookups are Go type
assertions. -/
def handleStatsParticipantCallback (db : DB) (q : CallbackQuery)
    (st : ConversationState) : HandlerResult :=
  let participantName := goTrimPre "stats_participant:" q.data
  match dmGet st.data "start_date" with
  | some (DVal.vDate startDate) =>
    match dmGet st.data "end_date" with
    | some (DVal.vDate endDate) =>
      match dmGet st.data "period_label" with
      | some (DVal.vStr periodLabel) =>
        ({ st with step := -1 },
         generateAndSendStatsReport db (getChatIDFromQuery q) startDate
           endDate periodLabel participantName st.messageThreadID,
         none)
      | _ => (st, Effects.nil, some (Fault.typeAssert "period_label"))
    | _ => (st, Effects.nil, some (Fault.typeAssert "end_date"))
  | _ => (st, Effects.nil, some (Fault.typeAssert "start_date"))

/-- Prefix routing of `handleCallbackQuery` (`internal/bot/handlers.go`);
an unmatched prefix is logged and dropped without touching the state. -/
def callbackDispatch (db : DB) (now : GoDate) (q : CallbackQuery)
    (st : ConversationState) : HandlerResult :=
  if strStarts "date:" q.data then handleDateCallback db now q st
  else if strStarts "book:" q.data then handleBookCallback db q st
  else if strStarts "participant:" q.data then handleParticipantCallback db q st
  else if strStarts "stats_period:" q.data then
    handleStatsPeriodCallback db now q st
  else if strStarts "stats_participant:" q.data then
    handleStatsParticipantCallback db q st
  else (st, Effects.nil, none)

/-- Model of `handleCallbackQuery`: per-event recovery boundary (panics are caught
and logged, no reply is sent), state lookup, prefix routing, and cleanup of
completed conversations. On a panic the deferred recover fires and the
function returns, skipping the cleanup; mutations made before the panic
stay visible through the shared state pointer. -/
def handleCallbackQueryGo (db : DB) (now : GoDate) (tbl : StateTable)
    (q : CallbackQuery) : StateTable × Effects :=
  let userID := q.fromID
  match tableGet tbl userID with
  | none => (tbl, Effects.nil)
  | some state =>
    match callbackDispatch db now q state with
    | (st', eff, some _) => (tableSet tbl userID st', eff)
    | (st', eff, none) =>
      if st'.step = -1 then (tableDel tbl userID, eff)
      else (tableSet tbl userID st', eff)

/-! ### Free-text conversation step handlers (`handleConversation` and
friends) -/

/-- A message entity (`models.MessageEntity`): type tag and offset. -/
structure MsgEntity where
  etype : String
  offset : Nat
deriving DecidableEq, Repr

/-- An inbound Telegram message. -/
structure TgMessage where
  fromID : Int
  chatID : Int
  text : String
  messageThreadID : Int
  entities : List MsgEntity
deriving DecidableEq, Repr

/-- Flag `isCommand` from `handleMessage`: the first entity is a bot command at
offset 0. -/
def isCommandMsg (m : TgMessage) : Bool :=
  match m.entities with
  | e :: _ => e.etype = "bot_command" ∧ e.offset = 0
  | [] => false

/-- Command-token extraction in `handleMessage`: strip the leading '/',
then cut at the first '@' (bot username) and the first ' ' (arguments).
Without a leading '/', the text is used as-is. -/
def extractCmd (text : String) : String :=
  match text.toList with
  | '/' :: rest => String.mk (cutAt ' ' (cutAt '@' rest))
  | _ => text

/-- Model of `handleNewBookConversation`: step 1 waits for the book name, creates the
book and completes the dialog. -/
def handleNewBookConversation (db : DB) (m : TgMessage)
    (st : ConversationState) : HandlerResult :=
  if st.step = 1 then
    let name := m.text
    let write := StoreWrite.createBook name
    match db.createBookRes name with
    | .error e =>
      ({ st with step := -1 },
       ⟨[⟨m.chatID, st.messageThreadID, "Error creating book: " ++ e, []⟩],
        [write]⟩,
       none)
    | .ok id =>
      ({ st with step := -1 },
       ⟨[⟨m.chatID, st.messageThreadID,
          "Book created successfully!\nName: " ++ id, []⟩], [write]⟩,
       none)
  else (st, Effects.nil, none)

/-- Model of `handleReadConversation`: the free-text steps of the read dialog. -/
def handleReadConversation (db : DB) (now : GoDate) (m : TgMessage)
    (st : ConversationState) : HandlerResult :=
  if st.step = 1 then
    -- step 1: custom date input, only when the flag was set by "date:custom"
    if (dmGet st.data "awaiting_custom_date").isNone then (st, Effects.nil, none)
    else
      let dateOpt : Option GoDate :=
        if goToLower m.text = "today" then some now
        else parseYYYYMMDD m.text
      match dateOpt with
      | none =>
        (st,
         msg1 m.chatID st.messageThreadID
           "❌ Invalid date format. Please use YYYY-MM-DD\n\nExample: 2024-01-15",
         none)
      | some date =>
        let st2 := { st with
          data := dmSet (dmDel st.data "awaiting_custom_date") "date"
            (DVal.vDate date)
          step := 2 }
        match db.listReadableBooks with
        | .error e =>
          ({ st2 with step := -1 },
           msg1 m.chatID st.messageThreadID ("Error: " ++ e), none)
        | .ok books =>
          (st2,
           msgButtons m.chatID st.messageThreadID "📚 Select a book:"
             ((List.range books.length).map (fun i => "book:" ++ toString i)),
           none)
  else if st.step = 2 then
    -- step 2: book selection by number
    match goAtoi m.text with
    | none =>
      (st,
       msg1 m.chatID st.messageThreadID
         "Invalid selection. Please enter a valid number:", none)
    | some bookIdx =>
      match db.listReadableBooks with
      | .error e =>
        ({ st with step := -1 },
         msg1 m.chatID st.messageThreadID ("Error: " ++ e), none)
      | .ok bookList =>
        if bookIdx < 1 ∨ (bookList.length : Int) < bookIdx then
          (st,
           msg1 m.chatID st.messageThreadID
             "Invalid selection. Please enter a valid number:", none)
        else
          let selectedBook := bookList.getD (bookIdx - 1).toNat ⟨"", false, []⟩
          let st2 := { st with
            data := dmSet st.data "book" (DVal.vStr selectedBook.name)
            step := 3 }
          match db.listParticipants with
          | .error e =>
            ({ st2 with step := -1 },
             msg1 m.chatID st.messageThreadID ("Error: " ++ e), none)
          | .ok participants =>
            (st2,
             msg1 m.chatID st.messageThreadID
               ("Please select a participant by number:\n\n" ++
                String.join (participants.enum.map (fun pi =>
                  toString (pi.1 + 1) ++ ". " ++ pi.2.name ++ "\n"))),
             none)
  else if st.step = 3 then
    -- step 3: participant selection by number, then event creation
    match goAtoi m.text with
    | none =>
      (st,
       msg1 m.chatID st.messageThreadID
         "Invalid selection. Please enter a valid number:", none)
    | some participantIdx =>
      match db.listParticipants with
      | .error e =>
        ({ st with step := -1 },
         msg1 m.chatID st.messageThreadID ("Error: " ++ e), none)
      | .ok participantList =>
        if participantIdx < 1 ∨ (participantList.length : Int) < participantIdx
        then
          (st,
           msg1 m.chatID st.messageThreadID
             "Invalid selection. Please enter a valid number:", none)
        else
          let selected := participantList.getD (participantIdx - 1).toNat
            ⟨"", false⟩
          match dmGet st.data "date" with
          | some (DVal.vDate date) =>
            match dmGet st.data "book" with
            | some (DVal.vStr bookName) =>
              let write := StoreWrite.createEvent date bookName selected.name
              match db.createEventRes with
              | .error e =>
                ({ st with step := -1 },
                 ⟨[⟨m.chatID, st.messageThreadID,
                    "Error creating event: " ++ e, []⟩], [write]⟩,
                 none)
              | .ok _ =>
                ({ st with step := -1 },
                 ⟨[⟨m.chatID, st.messageThreadID,
                    "Reading event recorded!\n\nDate: " ++ formatDate date ++
                      "\nBook: " ++ bookName ++ "\nReader: " ++ selected.name,
                    []⟩], [write]⟩,
                 none)
            | _ => (st, Effects.nil, some (Fault.typeAssert "book"))
          | _ => (st, Effects.nil, some (Fault.typeAssert "date"))
  else (st, Effects.nil, none)

/-- Model of `handleStatsConversation`: step 1 free-text month / year input. -/
def handleStatsConversation (db : DB) (m : TgMessage)
    (st : ConversationState) : HandlerResult :=
  if st.step = 1 then
    if (dmGet st.data "awaiting_month").isSome then
      match parseYYYYMM m.text with
      | none =>
        (st,
         msg1 m.chatID st.messageThreadID
           "❌ Invalid month format. Please use YYYY-MM\n\nExample: 2024-11",
         none)
      | some ym =>
        let startDate : GoDate := ⟨ym.1, ym.2, 1⟩
        -- start.AddDate(0, 1, 0).Add(-time.Second): at day granularity,
        -- the last day of the month
        let endDate := civilFromDays
          (daysFromCivil (goAddDate startDate 0 1 0) - 1)
        let st2 := { st with
          data := dmSet (dmSet (dmSet (dmDel st.data "awaiting_month")
            "start_date" (DVal.vDate startDate)) "end_date"
            (DVal.vDate endDate)) "period_label"
            (DVal.vStr (monthName ym.2 ++ " " ++ toString ym.1))
          step := 2 }
        (st2, showParticipantSelectionForStats db m.chatID st.messageThreadID,
         none)
    else if (dmGet st.data "awaiting_year").isSome then
      let yearOk : Option Int :=
        match goAtoi m.text with
        | none => none
        | some y => if y < 1900 ∨ 2100 < y then none else some y
      match yearOk with
      | none =>
        (st,
         msg1 m.chatID st.messageThreadID
           "❌ Invalid year. Please enter a valid year\n\nExample: 2024",
         none)
      | some y =>
        let startDate : GoDate := ⟨y, 1, 1⟩
        let endDate : GoDate := ⟨y, 12, 31⟩
        let st2 := { st with
          data := dmSet (dmSet (dmSet (dmDel st.data "awaiting_year")
            "start_date" (DVal.vDate startDate)) "end_date"
            (DVal.vDate endDate)) "period_label"
            (DVal.vStr ("Year " ++ toString y))
          step := 2 }
        (st2, showParticipantSelectionForStats db m.chatID st.messageThreadID,
         none)
    else (st, Effects.nil, none)
  else (st, Effects.nil, none)

/-- Model of `handleConversation`: dispatch on the active command and clean up
completed conversations; a panic skips the cleanup but mutations made
before it stay visible through the shared state pointer. -/
def handleConversation (db : DB) (now : GoDate) (tbl : StateTable)
    (m : TgMessage) (st : ConversationState) :
    StateTable × Effects × Option Fault :=
  let r : HandlerResult :=
    match st.command with
    | "new_book" => handleNewBookConversation db m st
    | "read" => handleReadConversation db now m st
    | "stats" => handleStatsConversation db m st
    | _ => (st, Effects.nil, none)
  match r with
  | (st', eff, some f) => (tableSet tbl m.fromID st', eff, some f)
  | (st', eff, none) =>
    (if st'.step = -1 then tableDel tbl m.fromID
     else tableSet tbl m.fromID st', eff, none)

/-! ### Command entry points (`internal/bot/commands.go`) -/

/-- Model of `handleStart`: the welcome text; no state is created. -/
def handleStart (m : TgMessage) : Effects :=
  msg1 m.chatID m.messageThreadID
    ("Welcome to the Home Library Bot! 📚\n\nAvailable commands:\n" ++
     "/new_book - Register a new book\n/read - Record a reading event\n" ++
     "/who_is_next - See who should read next\n" ++
     "/last - Show last 10 reading events\n/stats - View reading statistics\n" ++
     "/rare - Show rarely read books")

/-- Model of `handleNewBookStart`: unconditionally creates a fresh `new_book` state
at step 1. -/
def handleNewBookStart (tbl : StateTable) (m : TgMessage) :
    StateTable × Effects :=
  (tableSet tbl m.fromID ⟨"new_book", 1, [], m.messageThreadID⟩,
   msg1 m.chatID m.messageThreadID "Please enter the book name:")

/-- Model of `handleReadStart`: fetches the readable books first; on a fetch error or
an empty list it sends an error/hint and returns without creating state. -/
def handleReadStart (db : DB) (tbl : StateTable) (m : TgMessage) :
    StateTable × Effects :=
  match db.listReadableBooks with
  | .error e => (tbl, msg1 m.chatID m.messageThreadID ("Error: " ++ e))
  | .ok books =>
    if books.isEmpty then
      (tbl,
       msg1 m.chatID m.messageThreadID
         "No readable books available. Please add books first with /new_book")
    else
      (tableSet tbl m.fromID ⟨"read", 1, [], m.messageThreadID⟩,
       msgButtons m.chatID m.messageThreadID "📅 Select reading date:"
         ["date:today", "date:yesterday", "date:2daysago", "date:3daysago",
          "date:custom"])

/-- Model of `handleWhoIsNext`: one-shot rotation query; no state is created. -/
def handleWhoIsNext (db : DB) (m : TgMessage) : Effects :=
  match db.listParticipants with
  | .error e => msg1 m.chatID m.messageThreadID ("Error: " ++ e)
  | .ok participants =>
    if participants.isEmpty then
      msg1 m.chatID m.messageThreadID "No participants found in database"
    else
      match db.getLastEvents 1 with
      | .error e => msg1 m.chatID m.messageThreadID ("Error: " ++ e)
      | .ok events =>
        let lastParticipant :=
          match events with
          | [] => ""
          | e :: _ => e.participantName
        let nextReader := ComputeNextParticipant participants lastParticipant
        if nextReader = "" then
          msg1 m.chatID m.messageThreadID
            "No child participants found in database"
        else
          msg1 m.chatID m.messageThreadID ("Next to read: " ++ nextReader)

/-- Model of `handleLast`: one-shot query of the last 10 events; no state. -/
def handleLast (db : DB) (m : TgMessage) : Effects :=
  match db.getLastEvents 10 with
  | .error e => msg1 m.chatID m.messageThreadID ("Error: " ++ e)
  | .ok events =>
    if events.isEmpty then
      msg1 m.chatID m.messageThreadID "No reading events recorded yet."
    else
      msg1 m.chatID m.messageThreadID
        ("Last reading events:\n\n" ++
         String.join (events.enum.map (fun ie =>
           toString (ie.1 + 1) ++ ". " ++ formatDate ie.2.date ++ " - " ++
             ie.2.bookName ++ " (" ++ ie.2.participantName ++ ")\n")))

/-- Model of `handleStatsStart`: unconditionally creates a fresh `stats` state at
step 1 and shows the period keyboard. -/
def handleStatsStart (tbl : StateTable) (m : TgMessage) :
    StateTable × Effects :=
  (tableSet tbl m.fromID ⟨"stats", 1, [], m.messageThreadID⟩,
   msgButtons m.chatID m.messageThreadID
     "📊 Select time period for statistics:"
     ["stats_period:month", "stats_period:year", "stats_period:last2",
      "stats_period:last3", "stats_period:last6", "stats_period:last12"])

/-! ### Message dispatch (`internal/bot/handlers.go`) -/

/-- The command `switch` in `handleMessage`, entered only for command
messages. -/
def commandPhase (db : DB) (tbl : StateTable) (m : TgMessage)
    (isCmd : Bool) : StateTable × Effects × Option Fault :=
  if isCmd then
    match extractCmd m.text with
    | "start" => (tbl, handleStart m, none)
    | "new_book" =>
      let r := handleNewBookStart tbl m
      (r.1, r.2, none)
    | "read" =>
      let r := handleReadStart db tbl m
      (r.1, r.2, none)
    | "who_is_next" => (tbl, handleWhoIsNext db m, none)
    | "last" => (tbl, handleLast db m, none)
    | "stats" =>
      let r := handleStatsStart tbl m
      (r.1, r.2, none)
    | _ =>
      (tbl,
       msg1 m.chatID m.messageThreadID
         "Unknown command. Use /start to see available commands.", none)
  else (tbl, Effects.nil, none)

/-- The body of `handleMessage` (before the recovery boundary): stale-state
cleanup, command pre-emption, conversation routing, command dispatch. -/
def handleMessageBody (db : DB) (now : GoDate) (tbl : StateTable)
    (m : TgMessage) : StateTable × Effects × Option Fault :=
  let userID := m.fromID
  let isCmd := isCommandMsg m
  match tableGet tbl userID with
  | some state =>
    if state.step = -1 then commandPhase db (tableDel tbl userID) m isCmd
    else if isCmd then commandPhase db (tableDel tbl userID) m true
    else handleConversation db now tbl m state
  | none => commandPhase db tbl m isCmd

/-- Model of `handleMessage` with its recovery boundary: a panic is caught, logged,
and answered with a single generic error reply. -/
def processMessageGo (db : DB) (now : GoDate) (tbl : StateTable)
    (m : TgMessage) : StateTable × Effects :=
  match handleMessageBody db now tbl m with
  | (t, eff, some _) =>
    (t,
     Effects.seq eff (msg1 m.chatID m.messageThreadID
       "An error occurred while processing your request. Please try again."))
  | (t, eff, none) => (t, eff)

/-- A Telegram update (message or callback query). -/
structure TgUpdate where
  message : Option TgMessage
  callback : Option CallbackQuery
deriving Repr

/-- Model of `handleUpdate` (the `bot.WithDefaultHandler` entry point, also invoked
by `HandleWebhookUpdate` in webhook mode): routes to the message and
callback-query handlers. It performs no authorization check. -/
def handleUpdate (db : DB) (now : GoDate) (tbl : StateTable)
    (upd : TgUpdate) : StateTable × Effects :=
  match upd.message with
  | some m => processMessageGo db now tbl m
  | none =>
    match upd.callback with
    | some q => handleCallbackQueryGo db now tbl q
    | none => (tbl, Effects.nil)

/-! ### State-table lemmas and concrete fixtures -/

theorem tableGet_set_self (t : StateTable) (uid : Int)
    (v : ConversationState) : tableGet (tableSet t uid v) uid = some v := by
  simp [tableGet, tableSet, List.find?]

theorem tableGet_del_self (t : StateTable) (uid : Int) :
    tableGet (tableDel t uid) uid = none := by
  induction t with
  | nil => rfl
  | cons kv rest ih =>
    by_cases h : kv.1 = uid
    · simp [tableDel, tableGet, h, ih]
    · simp [tableDel, tableGet, List.find?, h, ih]

/-- Number of entries for a user (the Go map has at most one). -/
def tableCount (t : StateTable) (uid : Int) : Nat :=
  (t.filter (fun kv => kv.1 = uid)).length

theorem tableCount_del_self (t : StateTable) (uid : Int) :
    tableCount (tableDel t uid) uid = 0 := by
  induction t with
  | nil => rfl
  | cons kv rest ih =>
    by_cases h : kv.1 = uid
    · simp [tableDel, tableCount, h, ih]
    · simp [tableDel, tableCount, List.filter, h, ih]

theorem tableCount_set_self (t : StateTable) (uid : Int)
    (v : ConversationState) : tableCount (tableSet t uid v) uid = 1 := by
  have h := tableCount_del_self t uid
  simp only [tableCount, tableSet, List.filter] at *
  simp [h]

/-- A concrete storage snapshot for witnesses: three readable books, the
demo family, an empty history. -/
def demoDB : DB where
  listReadableBooks := .ok
    [⟨"The Hobbit", true, []⟩, ⟨"Winnie", true, []⟩, ⟨"Moomin", true, []⟩]
  listParticipants := .ok demoPeople
  getLastEvents := fun _ => .ok []
  createBookRes := fun n => .ok n
  createEventRes := .ok ()
  getTopBooks := fun _ _ _ _ => .ok []

def demoDate : GoDate := ⟨2024, 5, 17⟩

/-- A read dialog sitting at step 2 with a selected date. -/
def demoReadState2 : ConversationState :=
  ⟨"read", 2, [("date", DVal.vDate demoDate)], 0⟩

/-! ### C10: unknown date payloads are a complete no-op -/

/-- C10: for every conversation state and every date-selection callback
whose payload value after the "date:" prefix is none of custom, today,
yesterday, 2daysago or 3daysago, `handleDateCallback` returns the state
unchanged (step and data untouched) with no outbound message and no store
write; the result does not depend on the storage snapshot at all, so no
store call is observable. -/
theorem C10_unknown_date_payload_no_op (db : DB) (now : GoDate)
    (q : CallbackQuery) (st : ConversationState)
    (h : goTrimPre "date:" q.data ∉
      (["custom", "today", "yesterday", "2daysago", "3daysago"] :
        List String)) :
    handleDateCallback db now q st = (st, Effects.nil, none) := by
  simp only [List.mem_cons, List.not_mem_nil, or_false, not_or] at h
  obtain ⟨h1, h2, h3, h4, h5⟩ := h
  simp [handleDateCallback, h1, h2, h3, h4, h5]

/-- Witness for C10 at the concrete payload "date:banana". -/
theorem C10_unknown_date_payload_no_op_witness :
    handleDateCallback demoDB demoDate ⟨42, "date:banana", some 456⟩
        demoReadState2 = (demoReadState2, Effects.nil, none) :=
  C10_unknown_date_payload_no_op demoDB demoDate _ _ (by decide)

/-! ### C3: out-of-range book selection -/

/-- C3, amended: an out-of-range (or negative) book index sent to
`handleBookCallback` against a successfully fetched list leaves `data`
unmutated and emits the "Error: Invalid book selection" reply with no store
write — but it aborts the dialog by setting `step` to -1 (after which the
dispatcher deletes the state) rather than keeping it at step 2. -/
theorem C3_invalid_book_index_aborts (db : DB) (q : CallbackQuery)
    (st : ConversationState) (idx : Int) (books : List Book)
    (hidx : goAtoi (goTrimPre "book:" q.data) = some idx)
    (hbooks : db.listReadableBooks = .ok books)
    (hrange : idx < 0 ∨ (books.length : Int) ≤ idx) :
    handleBookCallback db q st =
      ({ st with step := -1 },
       msg1 (getChatIDFromQuery q) st.messageThreadID
         "Error: Invalid book selection",
       none) := by
  unfold handleBookCallback
  simp only [hidx, hbooks]
  rw [if_pos hrange]

/-- Witness for C3 at index 999 against the three demo books. -/
theorem C3_invalid_book_index_aborts_witness :
    handleBookCallback demoDB ⟨42, "book:999", some 456⟩ demoReadState2 =
      ({ demoReadState2 with step := -1 },
       msg1 456 0 "Error: Invalid book selection",
       none) :=
  C3_invalid_book_index_aborts demoDB _ _ 999
    [⟨"The Hobbit", true, []⟩, ⟨"Winnie", true, []⟩, ⟨"Moomin", true, []⟩]
    (by decide) rfl (by decide)

/-- C3, counterexample to the claim as stated: the dialog does not remain at
step 2 — the handler sets `step = -1`, aborting it (data is unmutated, the
error reply is emitted, and no store write happens). -/
theorem C3_counterexample :
    demoReadState2.step = 2 ∧
    (handleBookCallback demoDB ⟨42, "book:999", some 456⟩
        demoReadState2).1.step = -1 ∧
    (handleBookCallback demoDB ⟨42, "book:999", some 456⟩
        demoReadState2).1.step ≠ 2 ∧
    (handleBookCallback demoDB ⟨42, "book:999", some 456⟩
        demoReadState2).1.data = demoReadState2.data ∧
    (handleBookCallback demoDB ⟨42, "book:999", some 456⟩
        demoReadState2).2.1.msgs.length = 1 ∧
    (handleBookCallback demoDB ⟨42, "book:999", some 456⟩
        demoReadState2).2.1.writes = [] := by
  decide

/-! ### C9: the read entry point creates state only on a non-empty list -/

/-- C9: when `/read` is issued by a user with no current state, a `read`
state at step 1 exists afterwards iff the book-list fetch succeeded with at
least one book; on a failed fetch or an empty list the table is unchanged
and exactly one (error or hint) message with no store write is sent. -/
theorem C9_read_entry_guard (db : DB) (tbl : StateTable) (m : TgMessage)
    (hfresh : tableGet tbl m.fromID = none) :
    (tableGet (handleReadStart db tbl m).1 m.fromID =
        some ⟨"read", 1, [], m.messageThreadID⟩ ↔
      ∃ b bs, db.listReadableBooks = .ok (b :: bs)) ∧
    ((∀ b bs, db.listReadableBooks ≠ .ok (b :: bs)) →
      (handleReadStart db tbl m).1 = tbl ∧
      (handleReadStart db tbl m).2.msgs.length = 1 ∧
      (handleReadStart db tbl m).2.writes = []) := by
  match hdb : db.listReadableBooks with
  | .error e =>
    constructor
    · rw [show (handleReadStart db tbl m).1 = tbl from by
        simp [handleReadStart, hdb]]
      rw [hfresh]
      simp [hdb]
    · intro
      refine ⟨?_, ?_, ?_⟩ <;> simp [handleReadStart, hdb, msg1]
  | .ok [] =>
    constructor
    · rw [show (handleReadStart db tbl m).1 = tbl from by
        simp [handleReadStart, hdb]]
      rw [hfresh]
      simp [hdb]
    · intro
      refine ⟨?_, ?_, ?_⟩ <;> simp [handleReadStart, hdb, msg1]
  | .ok (b :: bs) =>
    constructor
    · rw [show (handleReadStart db tbl m).1 =
          tableSet tbl m.fromID ⟨"read", 1, [], m.messageThreadID⟩ from by
        simp [handleReadStart, hdb]]
      rw [tableGet_set_self]
      simp [hdb]
    · intro hno
      exact absurd rfl (hno b bs)

/-- Witness for C9 at the demo snapshot (three books, fresh user). -/
theorem C9_read_entry_guard_witness :
    (tableGet (handleReadStart demoDB []
        ⟨123, 456, "/read", 0, [⟨"bot_command", 0⟩]⟩).1 123 =
      some ⟨"read", 1, [], 0⟩ ↔
      ∃ b bs, demoDB.listReadableBooks = .ok (b :: bs)) ∧
    ((∀ b bs, demoDB.listReadableBooks ≠ .ok (b :: bs)) →
      (handleReadStart demoDB []
        ⟨123, 456, "/read", 0, [⟨"bot_command", 0⟩]⟩).1 = [] ∧
      (handleReadStart demoDB []
        ⟨123, 456, "/read", 0, [⟨"bot_command", 0⟩]⟩).2.msgs.length = 1 ∧
      (handleReadStart demoDB []
        ⟨123, 456, "/read", 0, [⟨"bot_command", 0⟩]⟩).2.writes = []) :=
  C9_read_entry_guard demoDB [] _ rfl

/-! ### C2: command pre-emption of an active dialog -/

theorem commandPhase_no_fault (db : DB) (tbl : StateTable) (m : TgMessage)
    (ic : Bool) : (commandPhase db tbl m ic).2.2 = none := by
  unfold commandPhase
  split
  · split <;> rfl
  · rfl

/-- With an active dialog and a command message, `handleMessage` deletes the
old state and runs the command switch against the remaining table. -/
theorem processMessage_preempt (db : DB) (now : GoDate) (tbl : StateTable)
    (m : TgMessage) (st : ConversationState)
    (hst : tableGet tbl m.fromID = some st)
    (hcmd : isCommandMsg m = true) :
    processMessageGo db now tbl m =
      ((commandPhase db (tableDel tbl m.fromID) m true).1,
       (commandPhase db (tableDel tbl m.fromID) m true).2.1) := by
  have hbody : handleMessageBody db now tbl m =
      commandPhase db (tableDel tbl m.fromID) m true := by
    unfold handleMessageBody
    simp only [hst, hcmd]
    by_cases hdone : st.step = -1
    · simp [hdone, hcmd]
    · simp [hdone, hcmd]
  unfold processMessageGo
  rw [hbody]
  have hf := commandPhase_no_fault db (tableDel tbl m.fromID) m true
  rcases hres : commandPhase db (tableDel tbl m.fromID) m true with ⟨t, eff, f⟩
  rw [hres] at hf
  simp at hf
  subst hf
  rfl

/-- C2, amended: a recognized command arriving during an active dialog (at
any step) always deletes the old state first; afterwards the user has
exactly one `ConversationState`, carrying the new command's identifier, for
the dialog-starting commands `new_book` and `stats`, and for `read` exactly
when the book-list fetch succeeds with at least one book; the one-shot
commands `start`, `who_is_next` and `last` (and `read` on a failed or empty
fetch) leave the user with no state at all. -/
theorem C2_new_command_preempts_dialog (db : DB) (now : GoDate)
    (tbl : StateTable) (m : TgMessage) (st : ConversationState)
    (hst : tableGet tbl m.fromID = some st)
    (hcmd : isCommandMsg m = true) :
    (extractCmd m.text = "new_book" →
      tableGet (processMessageGo db now tbl m).1 m.fromID =
        some ⟨"new_book", 1, [], m.messageThreadID⟩ ∧
      tableCount (processMessageGo db now tbl m).1 m.fromID = 1) ∧
    (extractCmd m.text = "stats" →
      tableGet (processMessageGo db now tbl m).1 m.fromID =
        some ⟨"stats", 1, [], m.messageThreadID⟩ ∧
      tableCount (processMessageGo db now tbl m).1 m.fromID = 1) ∧
    (extractCmd m.text = "read" →
      (∀ b bs, db.listReadableBooks = .ok (b :: bs) →
        tableGet (processMessageGo db now tbl m).1 m.fromID =
          some ⟨"read", 1, [], m.messageThreadID⟩ ∧
        tableCount (processMessageGo db now tbl m).1 m.fromID = 1) ∧
      ((∀ b bs, db.listReadableBooks ≠ .ok (b :: bs)) →
        tableGet (processMessageGo db now tbl m).1 m.fromID = none ∧
        tableCount (processMessageGo db now tbl m).1 m.fromID = 0)) ∧
    ((extractCmd m.text = "start" ∨ extractCmd m.text = "who_is_next" ∨
        extractCmd m.text = "last") →
      tableGet (processMessageGo db now tbl m).1 m.fromID = none ∧
      tableCount (processMessageGo db now tbl m).1 m.fromID = 0) := by
  rw [processMessage_preempt db now tbl m st hst hcmd]
  refine ⟨?_, ?_, ?_, ?_⟩
  · intro hc
    unfold commandPhase
    simp only [if_pos rfl, hc]
    exact ⟨tableGet_set_self _ _ _, tableCount_set_self _ _ _⟩
  · intro hc
    unfold commandPhase
    simp only [if_pos rfl, hc]
    exact ⟨tableGet_set_self _ _ _, tableCount_set_self _ _ _⟩
  · intro hc
    unfold commandPhase
    simp only [if_pos rfl, hc]
    constructor
    · intro b bs hdb
      simp only [handleReadStart, hdb, List.isEmpty_cons, Bool.false_eq_true,
        if_false]
      exact ⟨tableGet_set_self _ _ _, tableCount_set_self _ _ _⟩
    · intro hno
      match hdb : db.listReadableBooks with
      | .error e =>
        simp only [handleReadStart, hdb]
        exact ⟨tableGet_del_self _ _, tableCount_del_self _ _⟩
      | .ok [] =>
        simp only [handleReadStart, hdb, List.isEmpty_nil, if_true]
        exact ⟨tableGet_del_self _ _, tableCount_del_self _ _⟩
      | .ok (b :: bs) =>
        exact absurd hdb (hno b bs)
  · intro hc
    rcases hc with hc | hc | hc <;>
      (unfold commandPhase
       simp only [if_pos rfl, hc]
       exact ⟨tableGet_del_self _ _, tableCount_del_self _ _⟩)

/-- Witness for C2 at a concrete input: `/new_book` pre-empting an active
read dialog. -/
theorem C2_new_command_preempts_dialog_witness :
    (extractCmd "/new_book" = "new_book" →
      tableGet (processMessageGo demoDB demoDate [(123, demoReadState2)]
        ⟨123, 456, "/new_book", 0, [⟨"bot_command", 0⟩]⟩).1 123 =
        some ⟨"new_book", 1, [], 0⟩ ∧
      tableCount (processMessageGo demoDB demoDate [(123, demoReadState2)]
        ⟨123, 456, "/new_book", 0, [⟨"bot_command", 0⟩]⟩).1 123 = 1) ∧
    (extractCmd "/new_book" = "stats" →
      tableGet (processMessageGo demoDB demoDate [(123, demoReadState2)]
        ⟨123, 456, "/new_book", 0, [⟨"bot_command", 0⟩]⟩).1 123 =
        some ⟨"stats", 1, [], 0⟩ ∧
      tableCount (processMessageGo demoDB demoDate [(123, demoReadState2)]
        ⟨123, 456, "/new_book", 0, [⟨"bot_command", 0⟩]⟩).1 123 = 1) ∧
    (extractCmd "/new_book" = "read" →
      (∀ b bs, demoDB.listReadableBooks = .ok (b :: bs) →
        tableGet (processMessageGo demoDB demoDate [(123, demoReadState2)]
          ⟨123, 456, "/new_book", 0, [⟨"bot_command", 0⟩]⟩).1 123 =
          some ⟨"read", 1, [], 0⟩ ∧
        tableCount (processMessageGo demoDB demoDate [(123, demoReadState2)]
          ⟨123, 456, "/new_book", 0, [⟨"bot_command", 0⟩]⟩).1 123 = 1) ∧
      ((∀ b bs, demoDB.listReadableBooks ≠ .ok (b :: bs)) →
        tableGet (processMessageGo demoDB demoDate [(123, demoReadState2)]
          ⟨123, 456, "/new_book", 0, [⟨"bot_command", 0⟩]⟩).1 123 = none ∧
        tableCount (processMessageGo demoDB demoDate [(123, demoReadState2)]
          ⟨123, 456, "/new_book", 0, [⟨"bot_command", 0⟩]⟩).1 123 = 0)) ∧
    ((extractCmd "/new_book" = "start" ∨ extractCmd "/new_book" = "who_is_next" ∨
        extractCmd "/new_book" = "last") →
      tableGet (processMessageGo demoDB demoDate [(123, demoReadState2)]
        ⟨123, 456, "/new_book", 0, [⟨"bot_command", 0⟩]⟩).1 123 = none ∧
      tableCount (processMessageGo demoDB demoDate [(123, demoReadState2)]
        ⟨123, 456, "/new_book", 0, [⟨"bot_command", 0⟩]⟩).1 123 = 0) :=
  C2_new_command_preempts_dialog demoDB demoDate [(123, demoReadState2)]
    ⟨123, 456, "/new_book", 0, [⟨"bot_command", 0⟩]⟩ demoReadState2
    (by decide) (by decide)

/-- C2, counterexample to the claim as stated: `/start` is a recognized
top-level command, but issuing it during an active dialog leaves the user
with no `ConversationState` at all (the old dialog is deleted and `/start`
is one-shot), not "exactly one with the new command's identifier". -/
theorem C2_counterexample :
    isCommandMsg ⟨123, 456, "/start", 0, [⟨"bot_command", 0⟩]⟩ = true ∧
    tableGet [(123, demoReadState2)] 123 = some demoReadState2 ∧
    extractCmd "/start" = "start" ∧
    tableGet (processMessageGo demoDB demoDate [(123, demoReadState2)]
      ⟨123, 456, "/start", 0, [⟨"bot_command", 0⟩]⟩).1 123 = none := by
  decide

/-! ### C1: the allow-list check on the update path -/

/-- The allow-list as built by `NewBot` from `ALLOWED_USER_IDS`
(`allowedUsers map[int64]bool`), here with 123 as the only allowed user. -/
def demoAllowedUsers : Int → Bool := fun uid => uid == 123

/-- C1 evaluated at the failing input: the `handleUpdate` entry point (the
default handler for polling mode, and the target of `HandleWebhookUpdate`
in the go-telegram lifecycle) never consults the allow-list, so a
`/new_book` message from the unauthorized user 999 creates a
`ConversationState` for that user. -/
theorem C1_unauthorized_event_creates_state :
    demoAllowedUsers 999 = false ∧
    tableGet [] 999 = none ∧
    tableGet (handleUpdate demoDB demoDate []
      ⟨some ⟨999, 456, "/new_book", 0, [⟨"bot_command", 0⟩]⟩, none⟩).1 999 =
      some ⟨"new_book", 1, [], 0⟩ := by
  decide

/-! ### C4: the per-event recovery boundary -/

/-- A read dialog at step 3 whose `data` map is empty: the participant
selection will hit a failed type assertion (a panic in Go). -/
def readStep3Empty : ConversationState := ⟨"read", 3, [], 0⟩

/-- C4, amended: a panic while handling one event is always caught inside
the per-event handler and never propagates; on the message path it is
answered with a single generic "An error occurred…" reply appended after
the effects already produced, but on the callback-query path it is only
logged — no reply of any kind is sent. In both cases the state mutations
made before the panic remain visible. -/
theorem C4_recovery_boundary (db : DB) (now : GoDate) (tbl : StateTable)
    (m : TgMessage) (q : CallbackQuery) (st : ConversationState)
    (hqst : tableGet tbl q.fromID = some st) :
    (∀ t eff f, handleMessageBody db now tbl m = (t, eff, some f) →
      processMessageGo db now tbl m =
        (t, Effects.seq eff (msg1 m.chatID m.messageThreadID
          "An error occurred while processing your request. Please try again."))) ∧
    (∀ st' eff f, callbackDispatch db now q st = (st', eff, some f) →
      handleCallbackQueryGo db now tbl q =
        (tableSet tbl q.fromID st', eff)) := by
  constructor
  · intro t eff f h
    unfold processMessageGo
    rw [h]
  · intro st' eff f h
    unfold handleCallbackQueryGo
    simp only [hqst]
    rw [h]

/-- Witness for C4: a message-path panic (read step 3 with empty data)
yields the generic reply; a callback-path panic on the same state yields
no reply. -/
theorem C4_recovery_boundary_witness :
    processMessageGo demoDB demoDate [(123, readStep3Empty)]
        ⟨123, 456, "1", 0, []⟩ =
      (tableSet [(123, readStep3Empty)] 123 readStep3Empty,
       Effects.seq Effects.nil (msg1 456 0
         "An error occurred while processing your request. Please try again.")) ∧
    handleCallbackQueryGo demoDB demoDate [(123, readStep3Empty)]
        ⟨123, "participant:Alice", some 456⟩ =
      (tableSet [(123, readStep3Empty)] 123 readStep3Empty, Effects.nil) :=
  have h := C4_recovery_boundary demoDB demoDate [(123, readStep3Empty)]
    ⟨123, 456, "1", 0, []⟩ ⟨123, "participant:Alice", some 456⟩
    readStep3Empty (by decide)
  ⟨h.1 (tableSet [(123, readStep3Empty)] 123 readStep3Empty) Effects.nil
      (Fault.typeAssert "date") (by decide),
   h.2 readStep3Empty Effects.nil (Fault.typeAssert "date") (by decide)⟩

/-- C4, counterexample to the claim as stated: a callback-query panic is
caught and logged but converted into no reply at all — the outbound message
list is empty, not a single generic error reply. -/
theorem C4_counterexample :
    (callbackDispatch demoDB demoDate ⟨123, "participant:Alice", some 456⟩
        readStep3Empty).2.2 = some (Fault.typeAssert "date") ∧
    (handleCallbackQueryGo demoDB demoDate [(123, readStep3Empty)]
        ⟨123, "participant:Alice", some 456⟩).2.msgs = [] := by
  decide

/-! ### C8: custom date validation -/

theorem dmGet_set_self (mp : DataMap) (k : String) (v : DVal) :
    dmGet (dmSet mp k v) k = some v := by
  simp [dmGet, dmSet, List.find?]

/-- C8, amended: at step 1 of the read dialog with the custom-date flag set,
an input text is accepted iff it matches the exact YYYY-MM-DD pattern or is
(case-insensitively) the literal "today" (which records the current date);
any other text re-prompts and leaves the step and the accumulated data
completely unchanged; an accepted text records the date in `data` and
advances to step 2 (aborting with step -1 instead if the subsequent
book-list fetch fails). -/
theorem C8_custom_date_validation (db : DB) (now : GoDate) (m : TgMessage)
    (st : ConversationState)
    (hstep : st.step = 1)
    (hawait : (dmGet st.data "awaiting_custom_date").isSome) :
    ((goToLower m.text ≠ "today" ∧ parseYYYYMMDD m.text = none) →
      handleReadConversation db now m st =
        (st,
         msg1 m.chatID st.messageThreadID
           "❌ Invalid date format. Please use YYYY-MM-DD\n\nExample: 2024-01-15",
         none)) ∧
    (∀ d, (if goToLower m.text = "today" then some now
           else parseYYYYMMDD m.text) = some d →
      (handleReadConversation db now m st).1.step =
        (match db.listReadableBooks with
         | .ok _ => 2
         | .error _ => -1) ∧
      dmGet (handleReadConversation db now m st).1.data "date" =
        some (DVal.vDate d) ∧
      (handleReadConversation db now m st).2.2 = none) := by
  have hnone : (dmGet st.data "awaiting_custom_date").isNone = false := by
    rcases hx : dmGet st.data "awaiting_custom_date" with _ | y
    · rw [hx] at hawait
      simp at hawait
    · rfl
  constructor
  · rintro ⟨ht, hp⟩
    unfold handleReadConversation
    simp only [hstep, if_pos rfl, hnone, Bool.false_eq_true, if_false,
      if_neg ht, hp]
    simp
  · intro d hd
    unfold handleReadConversation
    simp only [hstep, if_pos rfl, hnone, Bool.false_eq_true, if_false, hd]
    match hdb : db.listReadableBooks with
    | .error e => simp [dmGet_set_self]
    | .ok books => simp [dmGet_set_self]

/-- Witness for C8: the malformed input "banana" re-prompts and changes
nothing. -/
theorem C8_custom_date_validation_witness :
    handleReadConversation demoDB demoDate ⟨123, 456, "banana", 0, []⟩
        ⟨"read", 1, [("awaiting_custom_date", DVal.vBool true)], 0⟩ =
      (⟨"read", 1, [("awaiting_custom_date", DVal.vBool true)], 0⟩,
       msg1 456 0
         "❌ Invalid date format. Please use YYYY-MM-DD\n\nExample: 2024-01-15",
       none) :=
  (C8_custom_date_validation demoDB demoDate ⟨123, 456, "banana", 0, []⟩
    ⟨"read", 1, [("awaiting_custom_date", DVal.vBool true)], 0⟩
    (by decide) (by decide)).1 ⟨by decide, by decide⟩

/-- C8, counterexample to the claim as stated: the input "today" does not
match the YYYY-MM-DD pattern yet is accepted — the handler records the
current date and advances to step 2. -/
theorem C8_counterexample :
    parseYYYYMMDD "today" = none ∧
    (handleReadConversation demoDB demoDate ⟨123, 456, "today", 0, []⟩
        ⟨"read", 1, [("awaiting_custom_date", DVal.vBool true)], 0⟩).1.step
      = 2 ∧
    dmGet (handleReadConversation demoDB demoDate ⟨123, 456, "today", 0, []⟩
        ⟨"read", 1, [("awaiting_custom_date", DVal.vBool true)], 0⟩).1.data
      "date" = some (DVal.vDate demoDate) := by
  decide

end HomeLib
